import Mathlib

/-!
Verification of the officeAIServer translation gateway (src/server.js and the
four-endpoint variant in src/unnamed/part_000).

The gateway exposes four POST routes, one per provider (Gemini, Claude,
OpenAI, DeepSeek).  Each handler destructures the JSON body into three
fields, validates the first two by JavaScript truthiness, builds a prompt
string, invokes the provider SDK, and normalizes the outcome into one JSON
response.  We embed the request-level semantics: field values are modelled
as a small JavaScript value type so that truthiness is faithful, the
provider SDK call is an oracle mapping the prompt to either a thrown error
or an extracted value, and a handler returns the HTTP response paired with
the prompt that was sent to the provider (or none when no call was made).
-/

/-- A JavaScript value as it can appear in a parsed JSON request body field
or as the result of the duck-typed extraction from a vendor response. -/
inductive JSValue where
  | undefined : JSValue
  | null : JSValue
  | jsStr : String → JSValue
  | jsNum : Int → JSValue
  | jsBool : Bool → JSValue
  deriving DecidableEq, Repr

/-- JavaScript truthiness of a value: undefined, null, the empty string,
the number 0 and false are falsy, everything else modelled is truthy. -/
def truthy : JSValue → Bool
  | JSValue.undefined => false
  | JSValue.null => false
  | JSValue.jsStr s => s != ""
  | JSValue.jsNum n => n != 0
  | JSValue.jsBool b => b

/-- Coercion of a JavaScript value to a string, as performed by template
literal interpolation. -/
def toJSString : JSValue → String
  | JSValue.undefined => "undefined"
  | JSValue.null => "null"
  | JSValue.jsStr s => s
  | JSValue.jsNum n => toString n
  | JSValue.jsBool b => if b then "true" else "false"

/-- The three fields destructured from req.body by every handler. -/
structure RequestBody where
  text : JSValue
  targetLanguage : JSValue
  instructions : JSValue
  deriving DecidableEq, Repr

/-- An HTTP response: status code plus the JSON body as key-value pairs. -/
structure HttpResponse where
  status : Nat
  body : List (String × JSValue)
  deriving DecidableEq, Repr

/-- Outcome of the awaited provider SDK call as seen inside the try block:
either the whole call (or the extraction step) threw with some error
detail, or it produced an extracted value. -/
inductive AdapterResult where
  | throws : String → AdapterResult
  | returns : JSValue → AdapterResult
  deriving DecidableEq, Repr

/-- The 400 response produced by the shared validation check
(src/server.js line 214, src/unnamed/part_000 lines 70, 101, 132, 161). -/
def validationError : HttpResponse :=
  ⟨400, [("error", JSValue.jsStr "Champs text et targetLanguage requis.")]⟩

/-- Prompt construction in the Gemini handler
(src/server.js lines 218-220). -/
def geminiPrompt (b : RequestBody) : String :=
  if truthy b.instructions then
    "Instructions: " ++ toJSString b.instructions ++
      "\n\nTraduire ce texte en " ++ toJSString b.targetLanguage ++ ":\n" ++
      toJSString b.text
  else
    "Traduire ce texte en " ++ toJSString b.targetLanguage ++ ":\n" ++
      toJSString b.text

/-- Prompt construction in the Claude handler
(src/server.js lines 249-251). -/
def claudePrompt (b : RequestBody) : String :=
  if truthy b.instructions then
    "Instructions: " ++ toJSString b.instructions ++
      "\n\nTraduire ce texte en " ++ toJSString b.targetLanguage ++ ":\n" ++
      toJSString b.text
  else
    "Traduire ce texte en " ++ toJSString b.targetLanguage ++ ":\n" ++
      toJSString b.text

/-- Prompt construction in the OpenAI handler
(src/server.js lines 279-281). -/
def openaiPrompt (b : RequestBody) : String :=
  if truthy b.instructions then
    "Instructions: " ++ toJSString b.instructions ++
      "\n\nTraduire ce texte en " ++ toJSString b.targetLanguage ++ ":\n" ++
      toJSString b.text
  else
    "Traduire ce texte en " ++ toJSString b.targetLanguage ++ ":\n" ++
      toJSString b.text

/-- Prompt construction in the DeepSeek handler
(src/unnamed/part_000 lines 165-167). -/
def deepseekPrompt (b : RequestBody) : String :=
  if truthy b.instructions then
    "Instructions: " ++ toJSString b.instructions ++
      "\n\nTraduire ce texte en " ++ toJSString b.targetLanguage ++ ":\n" ++
      toJSString b.text
  else
    "Traduire ce texte en " ++ toJSString b.targetLanguage ++ ":\n" ++
      toJSString b.text

/-- POST /api/translate/gemini (src/server.js lines 210-235).  The second
component is the prompt passed to the provider SDK, none when the
validation check short-circuited before any provider call.  The Gemini
handler returns the extracted value verbatim with no fallback. -/
def geminiHandler (b : RequestBody) (adapter : String → AdapterResult) :
    HttpResponse × Option String :=
  if !truthy b.text || !truthy b.targetLanguage then
    (validationError, none)
  else
    let prompt := geminiPrompt b
    let resp :=
      match adapter prompt with
      | AdapterResult.throws _ =>
          ⟨500, [("error", JSValue.jsStr "Erreur lors de la traduction via Gemini")]⟩
      | AdapterResult.returns v =>
          ⟨200, [("translation", v)]⟩
    (resp, some prompt)

/-- POST /api/translate/claude (src/server.js lines 241-266).  The
extracted value is replaced by the fixed placeholder when it is falsy. -/
def claudeHandler (b : RequestBody) (adapter : String → AdapterResult) :
    HttpResponse × Option String :=
  if !truthy b.text || !truthy b.targetLanguage then
    (validationError, none)
  else
    let prompt := claudePrompt b
    let resp :=
      match adapter prompt with
      | AdapterResult.throws _ =>
          ⟨500, [("error", JSValue.jsStr "Erreur lors de la traduction via Claude")]⟩
      | AdapterResult.returns v =>
          let translation :=
            if truthy v then v else JSValue.jsStr "(Aucune réponse Claude)"
          ⟨200, [("translation", translation)]⟩
    (resp, some prompt)

/-- POST /api/translate/openai (src/server.js lines 272-295). -/
def openaiHandler (b : RequestBody) (adapter : String → AdapterResult) :
    HttpResponse × Option String :=
  if !truthy b.text || !truthy b.targetLanguage then
    (validationError, none)
  else
    let prompt := openaiPrompt b
    let resp :=
      match adapter prompt with
      | AdapterResult.throws _ =>
          ⟨500, [("error", JSValue.jsStr "Erreur lors de la traduction via OpenAI")]⟩
      | AdapterResult.returns v =>
          let translation :=
            if truthy v then v else JSValue.jsStr "(Aucune réponse GPT)"
          ⟨200, [("translation", translation)]⟩
    (resp, some prompt)

/-- POST /api/translate/deepseek (src/unnamed/part_000 lines 157-183). -/
def deepseekHandler (b : RequestBody) (adapter : String → AdapterResult) :
    HttpResponse × Option String :=
  if !truthy b.text || !truthy b.targetLanguage then
    (validationError, none)
  else
    let prompt := deepseekPrompt b
    let resp :=
      match adapter prompt with
      | AdapterResult.throws _ =>
          ⟨500, [("error", JSValue.jsStr "Erreur lors de la traduction via DeepSeek")]⟩
      | AdapterResult.returns v =>
          let translation :=
            if truthy v then v else JSValue.jsStr "(Aucune réponse DeepSeek)"
          ⟨200, [("translation", translation)]⟩
    (resp, some prompt)

/-- The extraction step yielded a string, as the Gemini SDK contract for
the awaited text() promises. -/
def extractsString : AdapterResult → Prop
  | AdapterResult.throws _ => True
  | AdapterResult.returns v => ∃ s, v = JSValue.jsStr s

/-- The duck-typed chained-optional extraction yielded a string or came up
absent (undefined or null), as the chat SDK response schemas promise. -/
def extractsTextField : AdapterResult → Prop
  | AdapterResult.throws _ => True
  | AdapterResult.returns v =>
      v = JSValue.undefined ∨ v = JSValue.null ∨ ∃ s, v = JSValue.jsStr s

/-- The three mutually exclusive response shapes a translate handler can
produce: 400 with the fixed validation message, 500 with the fixed
provider message, or 200 with a string translation. -/
def responseShape (errMsg : String) (r : HttpResponse) : Prop :=
  (r.status = 400 ∧
      r.body = [("error", JSValue.jsStr "Champs text et targetLanguage requis.")]) ∨
  (r.status = 500 ∧ r.body = [("error", JSValue.jsStr errMsg)]) ∨
  (r.status = 200 ∧ ∃ s, r.body = [("translation", JSValue.jsStr s)])

/-- No response body holds both an error key and a translation key. -/
def exclusiveKeys (r : HttpResponse) : Prop :=
  ¬((r.body.lookup "error").isSome = true ∧
      (r.body.lookup "translation").isSome = true)

theorem openaiPrompt_ne_empty (b : RequestBody) : openaiPrompt b ≠ "" := by
  have h1 : 0 < ("Instructions: " : String).length := by decide
  have h2 : 0 < ("Traduire ce texte en " : String).length := by decide
  unfold openaiPrompt
  split <;> intro h <;>
    · have hl := congrArg String.length h
      simp only [String.length_append, String.length_empty] at hl
      omega

theorem deepseekPrompt_ne_empty (b : RequestBody) : deepseekPrompt b ≠ "" :=
  openaiPrompt_ne_empty b

theorem fallback_is_string (v : JSValue) (fb : String)
    (hv : v = JSValue.undefined ∨ v = JSValue.null ∨ ∃ s, v = JSValue.jsStr s) :
    ∃ s, (if truthy v then v else JSValue.jsStr fb) = JSValue.jsStr s := by
  rcases hv with h | h | ⟨s, h⟩ <;> subst h
  · exact ⟨fb, rfl⟩
  · exact ⟨fb, rfl⟩
  · cases hs : truthy (JSValue.jsStr s)
    · exact ⟨fb, by simp [hs]⟩
    · exact ⟨s, by simp [hs]⟩

/-- C1: a request whose text or targetLanguage field is falsy (missing,
empty, or otherwise) is answered 400 with body error
"Champs text et targetLanguage requis." by every translate endpoint, and
no provider call is made (the prompt component is none). -/
theorem translate_validation_rejects (b : RequestBody)
    (a : String → AdapterResult)
    (h : truthy b.text = false ∨ truthy b.targetLanguage = false) :
    geminiHandler b a = (validationError, none) ∧
    claudeHandler b a = (validationError, none) ∧
    openaiHandler b a = (validationError, none) ∧
    deepseekHandler b a = (validationError, none) := by
  have hcond : (!truthy b.text || !truthy b.targetLanguage) = true := by
    rcases h with h | h <;> simp [h]
  refine ⟨?_, ?_, ?_, ?_⟩ <;>
    simp [geminiHandler, claudeHandler, openaiHandler, deepseekHandler, hcond]

/-- Witness for C1 at the concrete body with empty text. -/
theorem translate_validation_rejects_witness :
    geminiHandler
        ⟨JSValue.jsStr "", JSValue.jsStr "English", JSValue.undefined⟩
        (fun _ => AdapterResult.returns JSValue.undefined) =
      (validationError, none) ∧
    claudeHandler
        ⟨JSValue.jsStr "", JSValue.jsStr "English", JSValue.undefined⟩
        (fun _ => AdapterResult.returns JSValue.undefined) =
      (validationError, none) ∧
    openaiHandler
        ⟨JSValue.jsStr "", JSValue.jsStr "English", JSValue.undefined⟩
        (fun _ => AdapterResult.returns JSValue.undefined) =
      (validationError, none) ∧
    deepseekHandler
        ⟨JSValue.jsStr "", JSValue.jsStr "English", JSValue.undefined⟩
        (fun _ => AdapterResult.returns JSValue.undefined) =
      (validationError, none) :=
  translate_validation_rejects _ _ (Or.inl (by decide))

/-- C2: for a valid request in which instructions is absent (undefined or
null) or the empty string, the prompt passed to the provider adapter of
every endpoint is exactly the translate template without an
instructions block. -/
theorem prompt_without_instructions (t l : String) (i : JSValue)
    (ht : t ≠ "") (hl : l ≠ "")
    (hi : i = JSValue.undefined ∨ i = JSValue.null ∨ i = JSValue.jsStr "")
    (a : String → AdapterResult) :
    (geminiHandler ⟨JSValue.jsStr t, JSValue.jsStr l, i⟩ a).2 =
      some ("Traduire ce texte en " ++ l ++ ":\n" ++ t) ∧
    (claudeHandler ⟨JSValue.jsStr t, JSValue.jsStr l, i⟩ a).2 =
      some ("Traduire ce texte en " ++ l ++ ":\n" ++ t) ∧
    (openaiHandler ⟨JSValue.jsStr t, JSValue.jsStr l, i⟩ a).2 =
      some ("Traduire ce texte en " ++ l ++ ":\n" ++ t) ∧
    (deepseekHandler ⟨JSValue.jsStr t, JSValue.jsStr l, i⟩ a).2 =
      some ("Traduire ce texte en " ++ l ++ ":\n" ++ t) := by
  have hti : truthy i = false := by rcases hi with h | h | h <;> subst h <;> rfl
  have hcond :
      (!truthy (JSValue.jsStr t) || !truthy (JSValue.jsStr l)) = false := by
    simp [truthy, ht, hl]
  refine ⟨?_, ?_, ?_, ?_⟩ <;>
    simp [geminiHandler, claudeHandler, openaiHandler, deepseekHandler,
      geminiPrompt, claudePrompt, openaiPrompt, deepseekPrompt,
      hcond, hti, toJSString]

/-- Witness for C2 at text Bonjour, targetLanguage English, instructions
absent. -/
theorem prompt_without_instructions_witness :
    (geminiHandler
        ⟨JSValue.jsStr "Bonjour", JSValue.jsStr "English", JSValue.undefined⟩
        (fun _ => AdapterResult.returns (JSValue.jsStr "Hello"))).2 =
      some "Traduire ce texte en English:\nBonjour" := by
  have h := prompt_without_instructions "Bonjour" "English" JSValue.undefined
    (by decide) (by decide) (Or.inl rfl)
    (fun _ => AdapterResult.returns (JSValue.jsStr "Hello"))
  exact h.1.trans (by rfl)

/-- C3: for a valid request with non-empty instructions, the prompt passed
to the provider adapter of every endpoint is exactly the template with the
instructions block prepended. -/
theorem prompt_with_instructions (t l i : String)
    (ht : t ≠ "") (hl : l ≠ "") (hi : i ≠ "")
    (a : String → AdapterResult) :
    (geminiHandler ⟨JSValue.jsStr t, JSValue.jsStr l, JSValue.jsStr i⟩ a).2 =
      some ("Instructions: " ++ i ++ "\n\nTraduire ce texte en " ++ l ++
        ":\n" ++ t) ∧
    (claudeHandler ⟨JSValue.jsStr t, JSValue.jsStr l, JSValue.jsStr i⟩ a).2 =
      some ("Instructions: " ++ i ++ "\n\nTraduire ce texte en " ++ l ++
        ":\n" ++ t) ∧
    (openaiHandler ⟨JSValue.jsStr t, JSValue.jsStr l, JSValue.jsStr i⟩ a).2 =
      some ("Instructions: " ++ i ++ "\n\nTraduire ce texte en " ++ l ++
        ":\n" ++ t) ∧
    (deepseekHandler ⟨JSValue.jsStr t, JSValue.jsStr l, JSValue.jsStr i⟩ a).2 =
      some ("Instructions: " ++ i ++ "\n\nTraduire ce texte en " ++ l ++
        ":\n" ++ t) := by
  have hti : truthy (JSValue.jsStr i) = true := by simp [truthy, hi]
  have hcond :
      (!truthy (JSValue.jsStr t) || !truthy (JSValue.jsStr l)) = false := by
    simp [truthy, ht, hl]
  refine ⟨?_, ?_, ?_, ?_⟩ <;>
    simp [geminiHandler, claudeHandler, openaiHandler, deepseekHandler,
      geminiPrompt, claudePrompt, openaiPrompt, deepseekPrompt,
      hcond, hti, toJSString]

/-- Witness for C3: the concrete claude scenario from the spec, yielding
the exact literal prompt. -/
theorem prompt_with_instructions_witness :
    (claudeHandler
        ⟨JSValue.jsStr "Bonjour", JSValue.jsStr "English",
          JSValue.jsStr "Be formal"⟩
        (fun _ => AdapterResult.returns (JSValue.jsStr "Hello"))).2 =
      some "Instructions: Be formal\n\nTraduire ce texte en English:\nBonjour" := by
  have h := prompt_with_instructions "Bonjour" "English" "Be formal"
    (by decide) (by decide) (by decide)
    (fun _ => AdapterResult.returns (JSValue.jsStr "Hello"))
  exact h.2.1.trans (by rfl)

/-- C4: the prompt construction is the same function at every endpoint:
for every request body the four handlers build identical prompt strings. -/
theorem prompt_identical_across_providers (b : RequestBody) :
    geminiPrompt b = claudePrompt b ∧ claudePrompt b = openaiPrompt b ∧
      openaiPrompt b = deepseekPrompt b :=
  ⟨rfl, rfl, rfl⟩

/-- C5: when the provider call throws with any error detail on a valid
request, each endpoint answers 500 whose body is exactly the fixed
provider-specific message; the detail d does not occur in the response,
which is the same constant for every d. -/
theorem provider_failure_returns_500 (b : RequestBody)
    (hT : truthy b.text = true) (hL : truthy b.targetLanguage = true)
    (d : String) :
    (geminiHandler b (fun _ => AdapterResult.throws d)).1 =
      ⟨500, [("error", JSValue.jsStr "Erreur lors de la traduction via Gemini")]⟩ ∧
    (claudeHandler b (fun _ => AdapterResult.throws d)).1 =
      ⟨500, [("error", JSValue.jsStr "Erreur lors de la traduction via Claude")]⟩ ∧
    (openaiHandler b (fun _ => AdapterResult.throws d)).1 =
      ⟨500, [("error", JSValue.jsStr "Erreur lors de la traduction via OpenAI")]⟩ ∧
    (deepseekHandler b (fun _ => AdapterResult.throws d)).1 =
      ⟨500, [("error", JSValue.jsStr "Erreur lors de la traduction via DeepSeek")]⟩ := by
  have hcond : (!truthy b.text || !truthy b.targetLanguage) = false := by
    simp [hT, hL]
  refine ⟨?_, ?_, ?_, ?_⟩ <;>
    simp [geminiHandler, claudeHandler, openaiHandler, deepseekHandler, hcond]

/-- Witness for C5 at a concrete valid body and a concrete vendor error
detail. -/
theorem provider_failure_returns_500_witness :
    (claudeHandler
        ⟨JSValue.jsStr "Bonjour", JSValue.jsStr "English", JSValue.undefined⟩
        (fun _ => AdapterResult.throws "401 invalid api key")).1 =
      ⟨500, [("error", JSValue.jsStr "Erreur lors de la traduction via Claude")]⟩ :=
  (provider_failure_returns_500
    ⟨JSValue.jsStr "Bonjour", JSValue.jsStr "English", JSValue.undefined⟩
    (by decide) (by decide) "401 invalid api key").2.1

/-- C6: when the extraction result is the empty string or absent
(undefined or null) on a valid request, the Claude, OpenAI and DeepSeek
endpoints answer 200 with the fixed placeholder as the translation. -/
theorem empty_extraction_placeholder (b : RequestBody)
    (hT : truthy b.text = true) (hL : truthy b.targetLanguage = true)
    (v : JSValue)
    (hv : v = JSValue.jsStr "" ∨ v = JSValue.undefined ∨ v = JSValue.null) :
    (claudeHandler b (fun _ => AdapterResult.returns v)).1 =
      ⟨200, [("translation", JSValue.jsStr "(Aucune réponse Claude)")]⟩ ∧
    (openaiHandler b (fun _ => AdapterResult.returns v)).1 =
      ⟨200, [("translation", JSValue.jsStr "(Aucune réponse GPT)")]⟩ ∧
    (deepseekHandler b (fun _ => AdapterResult.returns v)).1 =
      ⟨200, [("translation", JSValue.jsStr "(Aucune réponse DeepSeek)")]⟩ := by
  have hcond : (!truthy b.text || !truthy b.targetLanguage) = false := by
    simp [hT, hL]
  have htv : truthy v = false := by rcases hv with h | h | h <;> subst h <;> rfl
  refine ⟨?_, ?_, ?_⟩ <;>
    simp [claudeHandler, openaiHandler, deepseekHandler, hcond, htv]

/-- Witness for C6 at a concrete valid body and an absent extraction. -/
theorem empty_extraction_placeholder_witness :
    (claudeHandler
        ⟨JSValue.jsStr "Bonjour", JSValue.jsStr "English", JSValue.undefined⟩
        (fun _ => AdapterResult.returns JSValue.undefined)).1 =
      ⟨200, [("translation", JSValue.jsStr "(Aucune réponse Claude)")]⟩ ∧
    (openaiHandler
        ⟨JSValue.jsStr "Bonjour", JSValue.jsStr "English", JSValue.undefined⟩
        (fun _ => AdapterResult.returns JSValue.undefined)).1 =
      ⟨200, [("translation", JSValue.jsStr "(Aucune réponse GPT)")]⟩ ∧
    (deepseekHandler
        ⟨JSValue.jsStr "Bonjour", JSValue.jsStr "English", JSValue.undefined⟩
        (fun _ => AdapterResult.returns JSValue.undefined)).1 =
      ⟨200, [("translation", JSValue.jsStr "(Aucune réponse DeepSeek)")]⟩ :=
  empty_extraction_placeholder
    ⟨JSValue.jsStr "Bonjour", JSValue.jsStr "English", JSValue.undefined⟩
    (by decide) (by decide) JSValue.undefined (Or.inr (Or.inl rfl))

/-- C7: the Gemini endpoint substitutes no placeholder: on a valid request
every extraction result, the empty string included, is returned verbatim
as the translation with status 200, and a throw during the call or the
extraction lands in the catch branch as the 500 provider error. -/
theorem gemini_no_fallback (b : RequestBody)
    (hT : truthy b.text = true) (hL : truthy b.targetLanguage = true) :
    (∀ v : JSValue,
      (geminiHandler b (fun _ => AdapterResult.returns v)).1 =
        ⟨200, [("translation", v)]⟩) ∧
    (∀ d : String,
      (geminiHandler b (fun _ => AdapterResult.throws d)).1 =
        ⟨500, [("error", JSValue.jsStr "Erreur lors de la traduction via Gemini")]⟩) := by
  have hcond : (!truthy b.text || !truthy b.targetLanguage) = false := by
    simp [hT, hL]
  constructor
  · intro v
    simp [geminiHandler, hcond]
  · intro d
    simp [geminiHandler, hcond]

/-- Witness for C7: the empty string comes back verbatim, with no
placeholder. -/
theorem gemini_no_fallback_witness :
    (geminiHandler
        ⟨JSValue.jsStr "Bonjour", JSValue.jsStr "English", JSValue.undefined⟩
        (fun _ => AdapterResult.returns (JSValue.jsStr ""))).1 =
      ⟨200, [("translation", JSValue.jsStr "")]⟩ :=
  (gemini_no_fallback
    ⟨JSValue.jsStr "Bonjour", JSValue.jsStr "English", JSValue.undefined⟩
    (by decide) (by decide)).1 (JSValue.jsStr "")

/-- C8: with an adapter that echoes its input prompt, a valid request gets
a 200 whose translation equals the prompt the handler built; and the
concrete openai scenario with a stub returning Hello answers 200 with
translation Hello. -/
theorem echo_roundtrip (b : RequestBody)
    (hT : truthy b.text = true) (hL : truthy b.targetLanguage = true) :
    (openaiHandler b (fun p => AdapterResult.returns (JSValue.jsStr p))).1 =
      ⟨200, [("translation", JSValue.jsStr (openaiPrompt b))]⟩ ∧
    (deepseekHandler b (fun p => AdapterResult.returns (JSValue.jsStr p))).1 =
      ⟨200, [("translation", JSValue.jsStr (deepseekPrompt b))]⟩ ∧
    (openaiHandler
        ⟨JSValue.jsStr "Bonjour", JSValue.jsStr "English", JSValue.undefined⟩
        (fun _ => AdapterResult.returns (JSValue.jsStr "Hello"))).1 =
      ⟨200, [("translation", JSValue.jsStr "Hello")]⟩ := by
  have hcond : (!truthy b.text || !truthy b.targetLanguage) = false := by
    simp [hT, hL]
  have hpo : truthy (JSValue.jsStr (openaiPrompt b)) = true := by
    simp only [truthy, bne_iff_ne, ne_eq]
    exact openaiPrompt_ne_empty b
  have hpd : truthy (JSValue.jsStr (deepseekPrompt b)) = true := by
    simp only [truthy, bne_iff_ne, ne_eq]
    exact deepseekPrompt_ne_empty b
  refine ⟨?_, ?_, ?_⟩
  · simp [openaiHandler, hcond, hpo]
  · simp [deepseekHandler, hcond, hpd]
  · decide

/-- Witness for C8 at a concrete valid body for the echoing adapter. -/
theorem echo_roundtrip_witness :
    (openaiHandler
        ⟨JSValue.jsStr "Bonjour", JSValue.jsStr "English", JSValue.undefined⟩
        (fun p => AdapterResult.returns (JSValue.jsStr p))).1 =
      ⟨200, [("translation",
        JSValue.jsStr (openaiPrompt
          ⟨JSValue.jsStr "Bonjour", JSValue.jsStr "English",
            JSValue.undefined⟩))]⟩ :=
  (echo_roundtrip
    ⟨JSValue.jsStr "Bonjour", JSValue.jsStr "English", JSValue.undefined⟩
    (by decide) (by decide)).1

/-- C9: the validation is JavaScript truthiness, so a text or
targetLanguage holding the number 0 or the boolean false is also rejected
with the 400 validation response and no provider call. -/
theorem falsy_nonstring_rejected (b : RequestBody)
    (a : String → AdapterResult)
    (h : b.text = JSValue.jsNum 0 ∨ b.text = JSValue.jsBool false ∨
      b.targetLanguage = JSValue.jsNum 0 ∨
      b.targetLanguage = JSValue.jsBool false) :
    geminiHandler b a = (validationError, none) ∧
    claudeHandler b a = (validationError, none) ∧
    openaiHandler b a = (validationError, none) ∧
    deepseekHandler b a = (validationError, none) := by
  have hcond : (!truthy b.text || !truthy b.targetLanguage) = true := by
    rcases h with h | h | h | h <;> rw [h] <;> simp [truthy]
  refine ⟨?_, ?_, ?_, ?_⟩ <;>
    simp [geminiHandler, claudeHandler, openaiHandler, deepseekHandler, hcond]

/-- Witness for C9 at text holding the number 0. -/
theorem falsy_nonstring_rejected_witness :
    geminiHandler
        ⟨JSValue.jsNum 0, JSValue.jsStr "English", JSValue.undefined⟩
        (fun _ => AdapterResult.returns (JSValue.jsStr "Hello")) =
      (validationError, none) ∧
    claudeHandler
        ⟨JSValue.jsNum 0, JSValue.jsStr "English", JSValue.undefined⟩
        (fun _ => AdapterResult.returns (JSValue.jsStr "Hello")) =
      (validationError, none) ∧
    openaiHandler
        ⟨JSValue.jsNum 0, JSValue.jsStr "English", JSValue.undefined⟩
        (fun _ => AdapterResult.returns (JSValue.jsStr "Hello")) =
      (validationError, none) ∧
    deepseekHandler
        ⟨JSValue.jsNum 0, JSValue.jsStr "English", JSValue.undefined⟩
        (fun _ => AdapterResult.returns (JSValue.jsStr "Hello")) =
      (validationError, none) :=
  falsy_nonstring_rejected _ _ (Or.inl rfl)

theorem exclusiveKeys_translation_body (st : Nat) (v : JSValue) :
    exclusiveKeys ⟨st, [("translation", v)]⟩ := by
  intro h
  rcases h with ⟨h1, h2⟩
  simp [exclusiveKeys, List.lookup] at h1

theorem exclusiveKeys_error_body (st : Nat) (v : JSValue) :
    exclusiveKeys ⟨st, [("error", v)]⟩ := by
  intro h
  rcases h with ⟨h1, h2⟩
  simp [exclusiveKeys, List.lookup] at h2

/-- C10: assuming the vendor SDK extraction yields a string for Gemini and
a string or an absent field for the other three, every translate handler
response has exactly one of the three shapes: 400 with the validation
error, 500 with the provider error, or 200 with a string translation; and
no body carries both an error key and a translation key. -/
theorem response_shape_invariant (b : RequestBody)
    (aG aC aO aD : String → AdapterResult)
    (hG : ∀ p, extractsString (aG p))
    (hC : ∀ p, extractsTextField (aC p))
    (hO : ∀ p, extractsTextField (aO p))
    (hD : ∀ p, extractsTextField (aD p)) :
    (responseShape "Erreur lors de la traduction via Gemini"
        (geminiHandler b aG).1 ∧ exclusiveKeys (geminiHandler b aG).1) ∧
    (responseShape "Erreur lors de la traduction via Claude"
        (claudeHandler b aC).1 ∧ exclusiveKeys (claudeHandler b aC).1) ∧
    (responseShape "Erreur lors de la traduction via OpenAI"
        (openaiHandler b aO).1 ∧ exclusiveKeys (openaiHandler b aO).1) ∧
    (responseShape "Erreur lors de la traduction via DeepSeek"
        (deepseekHandler b aD).1 ∧ exclusiveKeys (deepseekHandler b aD).1) := by
  by_cases hval : (!truthy b.text || !truthy b.targetLanguage) = true
  · have hg : (geminiHandler b aG).1 = validationError := by
      simp [geminiHandler, hval]
    have hc : (claudeHandler b aC).1 = validationError := by
      simp [claudeHandler, hval]
    have ho : (openaiHandler b aO).1 = validationError := by
      simp [openaiHandler, hval]
    have hd : (deepseekHandler b aD).1 = validationError := by
      simp [deepseekHandler, hval]
    rw [hg, hc, ho, hd]
    refine ⟨⟨Or.inl ⟨rfl, rfl⟩, ?_⟩, ⟨Or.inl ⟨rfl, rfl⟩, ?_⟩,
      ⟨Or.inl ⟨rfl, rfl⟩, ?_⟩, ⟨Or.inl ⟨rfl, rfl⟩, ?_⟩⟩ <;>
      exact exclusiveKeys_error_body 400 _
  · have hval2 : (!truthy b.text || !truthy b.targetLanguage) = false := by
      simpa using hval
    refine ⟨?_, ?_, ?_, ?_⟩
    · cases hE : aG (geminiPrompt b) with
      | throws d =>
        have hg : (geminiHandler b aG).1 =
            ⟨500, [("error",
              JSValue.jsStr "Erreur lors de la traduction via Gemini")]⟩ := by
          simp [geminiHandler, hval2, hE]
        rw [hg]
        exact ⟨Or.inr (Or.inl ⟨rfl, rfl⟩), exclusiveKeys_error_body 500 _⟩
      | returns v =>
        have h2 := hG (geminiPrompt b)
        rw [hE] at h2
        simp only [extractsString] at h2
        obtain ⟨s, rfl⟩ := h2
        have hg : (geminiHandler b aG).1 =
            ⟨200, [("translation", JSValue.jsStr s)]⟩ := by
          simp [geminiHandler, hval2, hE]
        rw [hg]
        exact ⟨Or.inr (Or.inr ⟨rfl, s, rfl⟩),
          exclusiveKeys_translation_body 200 _⟩
    · cases hE : aC (claudePrompt b) with
      | throws d =>
        have hc : (claudeHandler b aC).1 =
            ⟨500, [("error",
              JSValue.jsStr "Erreur lors de la traduction via Claude")]⟩ := by
          simp [claudeHandler, hval2, hE]
        rw [hc]
        exact ⟨Or.inr (Or.inl ⟨rfl, rfl⟩), exclusiveKeys_error_body 500 _⟩
      | returns v =>
        have h2 := hC (claudePrompt b)
        rw [hE] at h2
        simp only [extractsTextField] at h2
        obtain ⟨s, hs⟩ := fallback_is_string v "(Aucune réponse Claude)" h2
        have hc : (claudeHandler b aC).1 =
            ⟨200, [("translation",
              if truthy v then v
              else JSValue.jsStr "(Aucune réponse Claude)")]⟩ := by
          simp [claudeHandler, hval2, hE]
        rw [hc, hs]
        exact ⟨Or.inr (Or.inr ⟨rfl, s, rfl⟩),
          exclusiveKeys_translation_body 200 _⟩
    · cases hE : aO (openaiPrompt b) with
      | throws d =>
        have ho : (openaiHandler b aO).1 =
            ⟨500, [("error",
              JSValue.jsStr "Erreur lors de la traduction via OpenAI")]⟩ := by
          simp [openaiHandler, hval2, hE]
        rw [ho]
        exact ⟨Or.inr (Or.inl ⟨rfl, rfl⟩), exclusiveKeys_error_body 500 _⟩
      | returns v =>
        have h2 := hO (openaiPrompt b)
        rw [hE] at h2
        simp only [extractsTextField] at h2
        obtain ⟨s, hs⟩ := fallback_is_string v "(Aucune réponse GPT)" h2
        have ho : (openaiHandler b aO).1 =
            ⟨200, [("translation",
              if truthy v then v
              else JSValue.jsStr "(Aucune réponse GPT)")]⟩ := by
          simp [openaiHandler, hval2, hE]
        rw [ho, hs]
        exact ⟨Or.inr (Or.inr ⟨rfl, s, rfl⟩),
          exclusiveKeys_translation_body 200 _⟩
    · cases hE : aD (deepseekPrompt b) with
      | throws d =>
        have hd : (deepseekHandler b aD).1 =
            ⟨500, [("error",
              JSValue.jsStr "Erreur lors de la traduction via DeepSeek")]⟩ := by
          simp [deepseekHandler, hval2, hE]
        rw [hd]
        exact ⟨Or.inr (Or.inl ⟨rfl, rfl⟩), exclusiveKeys_error_body 500 _⟩
      | returns v =>
        have h2 := hD (deepseekPrompt b)
        rw [hE] at h2
        simp only [extractsTextField] at h2
        obtain ⟨s, hs⟩ := fallback_is_string v "(Aucune réponse DeepSeek)" h2
        have hd : (deepseekHandler b aD).1 =
            ⟨200, [("translation",
              if truthy v then v
              else JSValue.jsStr "(Aucune réponse DeepSeek)")]⟩ := by
          simp [deepseekHandler, hval2, hE]
        rw [hd, hs]
        exact ⟨Or.inr (Or.inr ⟨rfl, s, rfl⟩),
          exclusiveKeys_translation_body 200 _⟩

/-- Witness for C10 at string-extracting adapters and a concrete body. -/
theorem response_shape_invariant_witness :
    (responseShape "Erreur lors de la traduction via Gemini"
        (geminiHandler
          ⟨JSValue.jsStr "Bonjour", JSValue.jsStr "English", JSValue.undefined⟩
          (fun _ => AdapterResult.returns (JSValue.jsStr "Hello"))).1 ∧
      exclusiveKeys
        (geminiHandler
          ⟨JSValue.jsStr "Bonjour", JSValue.jsStr "English", JSValue.undefined⟩
          (fun _ => AdapterResult.returns (JSValue.jsStr "Hello"))).1) ∧
    (responseShape "Erreur lors de la traduction via Claude"
        (claudeHandler
          ⟨JSValue.jsStr "Bonjour", JSValue.jsStr "English", JSValue.undefined⟩
          (fun _ => AdapterResult.returns (JSValue.jsStr "Hello"))).1 ∧
      exclusiveKeys
        (claudeHandler
          ⟨JSValue.jsStr "Bonjour", JSValue.jsStr "English", JSValue.undefined⟩
          (fun _ => AdapterResult.returns (JSValue.jsStr "Hello"))).1) ∧
    (responseShape "Erreur lors de la traduction via OpenAI"
        (openaiHandler
          ⟨JSValue.jsStr "Bonjour", JSValue.jsStr "English", JSValue.undefined⟩
          (fun _ => AdapterResult.returns (JSValue.jsStr "Hello"))).1 ∧
      exclusiveKeys
        (openaiHandler
          ⟨JSValue.jsStr "Bonjour", JSValue.jsStr "English", JSValue.undefined⟩
          (fun _ => AdapterResult.returns (JSValue.jsStr "Hello"))).1) ∧
    (responseShape "Erreur lors de la traduction via DeepSeek"
        (deepseekHandler
          ⟨JSValue.jsStr "Bonjour", JSValue.jsStr "English", JSValue.undefined⟩
          (fun _ => AdapterResult.returns (JSValue.jsStr "Hello"))).1 ∧
      exclusiveKeys
        (deepseekHandler
          ⟨JSValue.jsStr "Bonjour", JSValue.jsStr "English", JSValue.undefined⟩
          (fun _ => AdapterResult.returns (JSValue.jsStr "Hello"))).1) :=
  response_shape_invariant
    ⟨JSValue.jsStr "Bonjour", JSValue.jsStr "English", JSValue.undefined⟩
    (fun _ => AdapterResult.returns (JSValue.jsStr "Hello"))
    (fun _ => AdapterResult.returns (JSValue.jsStr "Hello"))
    (fun _ => AdapterResult.returns (JSValue.jsStr "Hello"))
    (fun _ => AdapterResult.returns (JSValue.jsStr "Hello"))
    (fun _ => ⟨"Hello", rfl⟩)
    (fun _ => Or.inr (Or.inr ⟨"Hello", rfl⟩))
    (fun _ => Or.inr (Or.inr ⟨"Hello", rfl⟩))
    (fun _ => Or.inr (Or.inr ⟨"Hello", rfl⟩))
